import Mathlib

/-!
Shallow embedding of `src/transactions.py` (e-waste-blockchain client).

The file models, faithfully to the Python source:
  - Python value-to-string conversions (`str` on `int` and `bool`),
  - UTF-8 encoding/decoding (`bytes(s, "UTF-8")`, `bytes.decode("UTF-8")`),
  - base64 (`base64.b64encode` / `base64.b64decode`),
  - `int(str)` parsing, `str.split` on "=", `bytes.hex()`,
  - `datetime.strftime` / `datetime.strptime` for the fixed format
    "%y%m%d%H%M%S%f" (`DATETIME_FORMAT`),
  - SHA-256 (`hashlib.sha256`) as an incremental hasher,
  - the four public operations of the module, with the HTTP transport
    modelled as an explicit response-behaviour parameter and Python's
    try/except control flow made explicit.
-/

set_option maxRecDepth 10000

/-- Python exception classes that the embedded code can raise. -/
inductive PyExc where
  | keyboardInterrupt
  | keyError
  | typeError
  | valueError
  | indexError
  | requestError
  | unicodeDecodeError
  | binasciiError
  deriving DecidableEq, Repr

/-- A parsed JSON document, the result of `json.loads`.  JSON numbers are
modelled as integers: the protocol's status codes and payloads are integral,
and floating point is out of scope. -/
inductive Json where
  | null
  | bool (b : Bool)
  | num (n : Int)
  | str (s : String)
  | arr (elems : List Json)
  | obj (fields : List (String × Json))

/-- A `datetime.datetime` value (naive, field-wise). -/
structure DateTime where
  year : Nat
  month : Nat
  day : Nat
  hour : Nat
  minute : Nat
  second : Nat
  microsecond : Nat
  deriving DecidableEq, Repr

/-- The range checks performed by the `datetime.datetime` constructor. -/
def isLeapYear (y : Nat) : Bool := y % 4 == 0 && (y % 100 != 0 || y % 400 == 0)

def daysInMonth (y m : Nat) : Nat :=
  if m = 2 then (if isLeapYear y then 29 else 28)
  else if m = 4 ∨ m = 6 ∨ m = 9 ∨ m = 11 then 30
  else 31

/-- A `DateTime` accepted by the `datetime.datetime` constructor. -/
def DateTime.Valid (dt : DateTime) : Prop :=
  1 ≤ dt.year ∧ dt.year ≤ 9999 ∧ 1 ≤ dt.month ∧ dt.month ≤ 12 ∧
  1 ≤ dt.day ∧ dt.day ≤ daysInMonth dt.year dt.month ∧
  dt.hour ≤ 23 ∧ dt.minute ≤ 59 ∧ dt.second ≤ 59 ∧ dt.microsecond ≤ 999999

instance (dt : DateTime) : Decidable dt.Valid := by
  unfold DateTime.Valid; infer_instance

/-- The ASCII character of a decimal digit. -/
def digitChar (d : Nat) : Char := Char.ofNat (48 + d)

/-- Decimal digits of a natural number, most significant first; fuel-based so
that it is structurally recursive (and hence kernel-reducible). -/
def natDigitsAux : Nat → Nat → List Char
  | 0, _ => []
  | fuel + 1, n =>
    if n < 10 then [digitChar n] else natDigitsAux fuel (n / 10) ++ [digitChar (n % 10)]

def natDigits (n : Nat) : List Char := natDigitsAux (n + 1) n

/-- Decimal rendering of a natural number. -/
def natRepr (n : Nat) : String := String.mk (natDigits n)

/-- Python `str` applied to an `int`. -/
def pyStr (i : Int) : String :=
  if i < 0 then "-" ++ natRepr i.natAbs else natRepr i.natAbs

/-- Python `str` applied to a `bool`. -/
def pyBoolStr (b : Bool) : String := if b then "True" else "False"

/-- UTF-8 encoding of one code point, as a list of byte values. -/
def utf8EncodeChar (c : Char) : List Nat :=
  let n := c.toNat
  if n < 128 then [n]
  else if n < 2048 then [192 + n / 64, 128 + n % 64]
  else if n < 65536 then [224 + n / 4096, 128 + n / 64 % 64, 128 + n % 64]
  else [240 + n / 262144, 128 + n / 4096 % 64, 128 + n / 64 % 64, 128 + n % 64]

/-- Python `bytes(s, "UTF-8")`: the UTF-8 byte string of a text string. -/
def utf8Encode (s : String) : List Nat := s.data.flatMap utf8EncodeChar

/-- Class test for a UTF-8 continuation byte. -/
def isCont (b : Nat) : Bool := 128 ≤ b && b ≤ 191

/-- Strict decoding of one UTF-8-encoded code point: the lead byte `b` plus
the required continuation bytes taken from `rest`, with the lead-specific
bounds on the first continuation byte that reject overlong forms, surrogates
and values above U+10FFFF, as CPython's strict codec does; returns the decoded
character and the remaining bytes. -/
def utf8DecodeOne (b : Nat) (rest : List Nat) : Option (Char × List Nat) :=
  if b < 128 then some (Char.ofNat b, rest)
  else if b < 194 then none
  else if b < 224 then
    match rest with
    | b1 :: rest1 =>
      if isCont b1 then some (Char.ofNat ((b - 192) * 64 + (b1 - 128)), rest1) else none
    | [] => none
  else if b < 240 then
    match rest with
    | b1 :: b2 :: rest2 =>
      if (if b = 224 then 160 ≤ b1 && b1 ≤ 191
          else if b = 237 then 128 ≤ b1 && b1 ≤ 159
          else isCont b1) && isCont b2 then
        some (Char.ofNat ((b - 224) * 4096 + (b1 - 128) * 64 + (b2 - 128)), rest2)
      else none
    | _ => none
  else if b < 245 then
    match rest with
    | b1 :: b2 :: b3 :: rest3 =>
      if (if b = 240 then 144 ≤ b1 && b1 ≤ 191
          else if b = 244 then 128 ≤ b1 && b1 ≤ 143
          else isCont b1) && isCont b2 && isCont b3 then
        some (Char.ofNat ((b - 240) * 262144 + (b1 - 128) * 4096 + (b2 - 128) * 64 + (b3 - 128)),
          rest3)
      else none
    | _ => none
  else none

/-- Strict UTF-8 decoding of a byte list, one code point at a time; the fuel
argument (instantiated with the list length, an upper bound on the number of
code points) keeps the recursion structural. -/
def utf8DecodeAux : Nat → List Nat → Option (List Char)
  | _, [] => some []
  | 0, _ :: _ => none
  | fuel + 1, b :: rest =>
    match utf8DecodeOne b rest with
    | some p => (utf8DecodeAux fuel p.2).map (fun cs => p.1 :: cs)
    | none => none

/-- Strict UTF-8 decoding of a byte list. -/
def utf8DecodeList (bs : List Nat) : Option (List Char) := utf8DecodeAux bs.length bs

/-- Python `bytes.decode("UTF-8")` (strict errors, the default). -/
def pyBytesDecode (bs : List Nat) : Except PyExc String :=
  match utf8DecodeList bs with
  | some cs => .ok (String.mk cs)
  | none => .error .unicodeDecodeError

/-- The base64 alphabet, index order as in RFC 4648. -/
def b64Alphabet : List Char :=
  "ABCDEFGHIJKLMNOPQRSTUVWXYZabcdefghijklmnopqrstuvwxyz0123456789+/".data

/-- Character of a six-bit group. -/
def b64Char (n : Nat) : Char := b64Alphabet.getD n '='

/-- Index of a character in the base64 alphabet, if any. -/
def sextetOf (c : Char) : Option Nat := b64Alphabet.findIdx? (fun x => x == c)

/-- Base64 characters of a byte list, processed three bytes at a time, with
trailing pad characters as produced by `base64.b64encode`. -/
def b64EncodeChunks : List Nat → List Char
  | [] => []
  | [a] => [b64Char (a / 4), b64Char (a % 4 * 16), '=', '=']
  | [a, b] => [b64Char (a / 4), b64Char (a % 4 * 16 + b / 16), b64Char (b % 16 * 4), '=']
  | a :: b :: c :: rest =>
    b64Char (a / 4) :: b64Char (a % 4 * 16 + b / 16) :: b64Char (b % 16 * 4 + c / 64) ::
      b64Char (c % 64) :: b64EncodeChunks rest

/-- Python `base64.b64encode` (result read back as a character string). -/
def pyB64Encode (bs : List Nat) : String := String.mk (b64EncodeChunks bs)

/-- Bytes reassembled from a list of six-bit values, four at a time; a final
group of two or three values yields one or two bytes. -/
def b64DecodeChunks : List Nat → List Nat
  | s1 :: s2 :: s3 :: s4 :: rest =>
    (s1 * 4 + s2 / 16) :: (s2 % 16 * 16 + s3 / 4) :: (s3 % 4 * 64 + s4) :: b64DecodeChunks rest
  | [s1, s2] => [s1 * 4 + s2 / 16]
  | [s1, s2, s3] => [s1 * 4 + s2 / 16, s2 % 16 * 16 + s3 / 4]
  | _ => []

/-- A character that `base64.b64decode` does not discard. -/
def isB64Relevant (c : Char) : Bool := c == '=' || (sextetOf c).isSome

/-- Python `base64.b64decode` with default (non-strict) validation: characters
outside the alphabet are discarded, data before the first pad character is
decoded, and missing padding raises `binascii.Error`. -/
def pyB64Decode (s : String) : Except PyExc (List Nat) :=
  let relevant := s.data.filter isB64Relevant
  let dataChars := relevant.takeWhile (fun c => c != '=')
  let pads := relevant.length - dataChars.length
  let sextets := dataChars.filterMap sextetOf
  if sextets.length % 4 == 1 || pads < (4 - sextets.length % 4) % 4 then
    .error .binasciiError
  else .ok (b64DecodeChunks sextets)

/-- Python `base64.b64decode` applied to a JSON value: a string is decoded,
anything else raises `TypeError`. -/
def pyB64DecodeJson : Json → Except PyExc (List Nat)
  | .str s => pyB64Decode s
  | _ => .error .typeError

/-- Numeric value of an ASCII decimal digit. -/
def digitVal (c : Char) : Option Nat :=
  if 48 ≤ c.toNat ∧ c.toNat ≤ 57 then some (c.toNat - 48) else none

/-- Digit run of Python `int(str)`: decimal digits with single underscores
allowed between digits. -/
def parseDigitsAux : List Char → Nat → Option Nat
  | [], acc => some acc
  | c :: rest, acc =>
    match digitVal c with
    | some d => parseDigitsAux rest (acc * 10 + d)
    | none =>
      if c == '_' then
        match rest with
        | r :: rest2 =>
          match digitVal r with
          | some d => parseDigitsAux rest2 (acc * 10 + d)
          | none => none
        | [] => none
      else none

/-- A nonempty digit run, starting with a digit. -/
def parseUnsignedInt : List Char → Option Nat
  | [] => none
  | c :: rest =>
    match digitVal c with
    | some d => parseDigitsAux rest d
    | none => none

/-- ASCII whitespace stripped by Python `int(str)`. -/
def isPySpace (c : Char) : Bool :=
  c == ' ' || c == '\t' || c == '\n' || c == '\r' || c == '\x0b' || c == '\x0c'

/-- Both-ends whitespace strip. -/
def stripChars (cs : List Char) : List Char :=
  ((cs.dropWhile isPySpace).reverse.dropWhile isPySpace).reverse

/-- Python `int(s)` for a `str` argument: optional surrounding whitespace, an
optional sign, then a nonempty digit run; anything else raises `ValueError`. -/
def pyIntStr (s : String) : Except PyExc Int :=
  match stripChars s.data with
  | [] => .error .valueError
  | c :: rest =>
    if c == '-' then
      match parseUnsignedInt rest with
      | some n => .ok (-(n : Int))
      | none => .error .valueError
    else if c == '+' then
      match parseUnsignedInt rest with
      | some n => .ok ((n : Int))
      | none => .error .valueError
    else
      match parseUnsignedInt (c :: rest) with
      | some n => .ok ((n : Int))
      | none => .error .valueError

/-- Splitting a character list at every occurrence of a separator character,
keeping empty parts (the accumulator holds the current part reversed). -/
def splitOnCharAux (sep : Char) : List Char → List Char → List String
  | [], acc => [String.mk acc.reverse]
  | c :: rest, acc =>
    if c == sep then String.mk acc.reverse :: splitOnCharAux sep rest []
    else splitOnCharAux sep rest (c :: acc)

/-- Python `str.split` with the one-character separator "=". -/
def pySplitEq (s : String) : List String := splitOnCharAux '=' s.data []

/-- Lowercase hexadecimal digits. -/
def hexChars : List Char := "0123456789abcdef".data

/-- Python `bytes.hex()`: two lowercase hexadecimal digits per byte. -/
def bytesHex (bs : List Nat) : String :=
  String.mk (bs.flatMap fun b => [hexChars.getD (b / 16 % 16) '0', hexChars.getD (b % 16) '0'])

/-- The timestamp format string of the source module (line 54). -/
def DATETIME_FORMAT : String := "%y%m%d%H%M%S%f"

/-- Left zero-fill to a given width, as printf-style zero padding does. -/
def zfill (w : Nat) (s : String) : String :=
  if s.length < w then String.mk (List.replicate (w - s.length) '0') ++ s else s

/-- Python `datetime.strftime` for the fixed format "%y%m%d%H%M%S%f":
two-digit year (year modulo 100), month, day, hour, minute and second, then
the microsecond zero-padded to six digits, all without separators. -/
def pyStrftime (dt : DateTime) : String :=
  zfill 2 (natRepr (dt.year % 100)) ++ zfill 2 (natRepr dt.month) ++ zfill 2 (natRepr dt.day) ++
    zfill 2 (natRepr dt.hour) ++ zfill 2 (natRepr dt.minute) ++ zfill 2 (natRepr dt.second) ++
    zfill 6 (natRepr dt.microsecond)

/-- Two mandatory digits (the "%y" pattern of strptime). -/
def parse2Digits : List Char → Option (Nat × List Char)
  | c1 :: c2 :: rest =>
    match digitVal c1, digitVal c2 with
    | some d1, some d2 => some (d1 * 10 + d2, rest)
    | _, _ => none
  | _ => none

/-- A two-digit-or-one-digit field of strptime, trying the two-digit
alternatives of the field's pattern first (regex alternation order), then the
one-digit alternative. -/
def parseTwoOrOne (twoOK : Nat → Nat → Bool) (oneOK : Nat → Bool) :
    List Char → Option (Nat × List Char)
  | c1 :: c2 :: rest =>
    match digitVal c1, digitVal c2 with
    | some d1, some d2 =>
      if twoOK d1 d2 then some (d1 * 10 + d2, rest)
      else if oneOK d1 then some (d1, c2 :: rest)
      else none
    | some d1, none => if oneOK d1 then some (d1, c2 :: rest) else none
    | none, _ => none
  | [c1] =>
    match digitVal c1 with
    | some d1 => if oneOK d1 then some (d1, []) else none
    | none => none
  | [] => none

/-- Up to `k` leading digits of a character list, with the remainder. -/
def takeDigits : Nat → List Char → (List Nat × List Char)
  | 0, cs => ([], cs)
  | _ + 1, [] => ([], [])
  | k + 1, c :: rest =>
    match digitVal c with
    | some d =>
      let p := takeDigits k rest
      (d :: p.1, p.2)
    | none => ([], c :: rest)

/-- Value of a most-significant-first digit list. -/
def digitsVal (ds : List Nat) : Nat := ds.foldl (fun a d => a * 10 + d) 0

/-- The "%f" field of strptime: one to six digits, scaled to microseconds. -/
def parseMicro (cs : List Char) : Option (Nat × List Char) :=
  let p := takeDigits 6 cs
  if p.1.length = 0 then none else some (digitsVal p.1 * 10 ^ (6 - p.1.length), p.2)

/-- Python `datetime.strptime(s, DATETIME_FORMAT)`.  Fields are matched in
sequence with the character classes of CPython's `_strptime.TimeRE` ("%m"
matches two digits 01-12 or one digit 1-9, and so on); the two-digit year maps
to 2000-2068 for 00-68 and to 1969-1999 for 69-99; the resulting fields then
pass through the `datetime` constructor's range checks.  Unconverted trailing
data is an error. -/
def pyStrptimeOpt (s : String) : Option DateTime :=
  (parse2Digits s.data).bind fun py =>
  (parseTwoOrOne (fun d1 d2 => (d1 == 1 && d2 ≤ 2) || (d1 == 0 && 1 ≤ d2))
      (fun d1 => 1 ≤ d1) py.2).bind fun pm =>
  (parseTwoOrOne (fun d1 d2 => (d1 == 3 && d2 ≤ 1) || d1 == 1 || d1 == 2 || (d1 == 0 && 1 ≤ d2))
      (fun d1 => 1 ≤ d1) pm.2).bind fun pd =>
  (parseTwoOrOne (fun d1 d2 => (d1 == 2 && d2 ≤ 3) || d1 ≤ 1)
      (fun _ => true) pd.2).bind fun ph =>
  (parseTwoOrOne (fun d1 _ => d1 ≤ 5) (fun _ => true) ph.2).bind fun pmi =>
  (parseTwoOrOne (fun d1 d2 => (d1 == 6 && d2 ≤ 1) || d1 ≤ 5) (fun _ => true) pmi.2).bind fun ps =>
  (parseMicro ps.2).bind fun pf =>
  if pf.2 = [] then
    let y := if py.1 ≤ 68 then 2000 + py.1 else 1900 + py.1
    if 1 ≤ pd.1 ∧ pd.1 ≤ daysInMonth y pm.1 ∧ ps.1 ≤ 59 then
      some ⟨y, pm.1, pd.1, ph.1, pmi.1, ps.1, pf.1⟩
    else none
  else none

/-- Python `datetime.strptime(s, DATETIME_FORMAT)`, raising `ValueError` on
any mismatch. -/
def pyStrptime (s : String) : Except PyExc DateTime :=
  match pyStrptimeOpt s with
  | some dt => .ok dt
  | none => .error .valueError

/-- Reduction to 32 bits. -/
def w32 (n : Nat) : Nat := n % 4294967296

/-- Right rotation of a 32-bit value by `k` places. -/
def rotr32 (k x : Nat) : Nat := w32 (x / 2 ^ k + x % 2 ^ k * 2 ^ (32 - k))

/-- The 64 SHA-256 round constants of FIPS 180-4, written in decimal. -/
def sha256K : List Nat :=
  [1116352408, 1899447441, 3049323471, 3921009573, 961987163,
   1508970993, 2453635748, 2870763221, 3624381080, 310598401,
   607225278, 1426881987, 1925078388, 2162078206, 2614888103,
   3248222580, 3835390401, 4022224774, 264347078, 604807628,
   770255983, 1249150122, 1555081692, 1996064986, 2554220882,
   2821834349, 2952996808, 3210313671, 3336571891, 3584528711,
   113926993, 338241895, 666307205, 773529912, 1294757372,
   1396182291, 1695183700, 1986661051, 2177026350, 2456956037,
   2730485921, 2820302411, 3259730800, 3345764771, 3516065817,
   3600352804, 4094571909, 275423344, 430227734, 506948616,
   659060556, 883997877, 958139571, 1322822218, 1537002063,
   1747873779, 1955562222, 2024104815, 2227730452, 2361852424,
   2428436474, 2756734187, 3204031479, 3329325298]

/-- The eight SHA-256 initial hash words of FIPS 180-4, written in decimal. -/
def sha256IV : List Nat :=
  [1779033703, 3144134277, 1013904242, 2773480762, 1359893119,
   2600822924, 528734635, 1541459225]

/-- Big-endian bytes of a 32-bit value. -/
def be32 (n : Nat) : List Nat := [n / 16777216 % 256, n / 65536 % 256, n / 256 % 256, n % 256]

/-- Big-endian bytes of a 64-bit value. -/
def be64 (n : Nat) : List Nat :=
  [n / 2 ^ 56 % 256, n / 2 ^ 48 % 256, n / 2 ^ 40 % 256, n / 2 ^ 32 % 256,
   n / 2 ^ 24 % 256, n / 2 ^ 16 % 256, n / 2 ^ 8 % 256, n % 256]

/-- SHA-256 message padding: a 0x80 byte, zeros to 56 modulo 64, then the
bit length in 8 big-endian bytes. -/
def sha256Pad (msg : List Nat) : List Nat :=
  msg ++ 128 :: List.replicate ((119 - msg.length % 64) % 64) 0 ++ be64 (msg.length * 8)

/-- Big-endian 32-bit words of a byte list. -/
def bytesToWords : List Nat → List Nat
  | b0 :: b1 :: b2 :: b3 :: rest =>
    (b0 * 16777216 + b1 * 65536 + b2 * 256 + b3) :: bytesToWords rest
  | _ => []

def smallSigma0 (x : Nat) : Nat := Nat.xor (Nat.xor (rotr32 7 x) (rotr32 18 x)) (x / 2 ^ 3)

def smallSigma1 (x : Nat) : Nat := Nat.xor (Nat.xor (rotr32 17 x) (rotr32 19 x)) (x / 2 ^ 10)

def bigSigma0 (x : Nat) : Nat := Nat.xor (Nat.xor (rotr32 2 x) (rotr32 13 x)) (rotr32 22 x)

def bigSigma1 (x : Nat) : Nat := Nat.xor (Nat.xor (rotr32 6 x) (rotr32 11 x)) (rotr32 25 x)

/-- Extension of the 16-word message schedule by `k` further words. -/
def extendSchedule : Nat → List Nat → List Nat
  | 0, w => w
  | k + 1, w =>
    let n := w.length
    let next := w32 (smallSigma1 (w.getD (n - 2) 0) + w.getD (n - 7) 0 +
      smallSigma0 (w.getD (n - 15) 0) + w.getD (n - 16) 0)
    extendSchedule k (w ++ [next])

def chV (x y z : Nat) : Nat := Nat.xor (Nat.land x y) (Nat.land (Nat.xor x 4294967295) z)

def majV (x y z : Nat) : Nat :=
  Nat.xor (Nat.xor (Nat.land x y) (Nat.land x z)) (Nat.land y z)

/-- One round of the SHA-256 compression function on the eight working
variables; `kw` is the sum of the round constant and the schedule word. -/
def compressStep (st : List Nat) (kw : Nat) : List Nat :=
  match st with
  | [a, b, c, d, e, f, g, h] =>
    let t1 := w32 (h + bigSigma1 e + chV e f g + kw)
    let t2 := w32 (bigSigma0 a + majV a b c)
    [w32 (t1 + t2), a, b, c, w32 (d + t1), e, f, g]
  | _ => st

/-- Compression of one 64-byte block into the running hash value. -/
def sha256Compress (H : List Nat) (block : List Nat) : List Nat :=
  let w := extendSchedule 48 (bytesToWords block)
  let st := (List.zipWith (fun k wi => w32 (k + wi)) sha256K w).foldl compressStep H
  List.zipWith (fun x y => w32 (x + y)) H st

/-- Iteration of the compression function over consecutive 64-byte blocks
(fuel-based so that it is structurally recursive). -/
def sha256ProcessBlocks : Nat → List Nat → List Nat → List Nat
  | 0, H, _ => H
  | fuel + 1, H, msg =>
    match msg with
    | [] => H
    | _ => sha256ProcessBlocks fuel (sha256Compress H (msg.take 64)) (msg.drop 64)

/-- SHA-256 digest of a byte string (the semantics of `hashlib.sha256`). -/
def sha256Bytes (msg : List Nat) : List Nat :=
  let padded := sha256Pad msg
  (sha256ProcessBlocks (padded.length / 64 + 1) sha256IV padded).flatMap be32

/-- A `hashlib.sha256()` hasher object; its state is the byte stream absorbed
so far, and `digest` hashes that stream (hashlib's incremental interface). -/
structure Sha256Hasher where
  absorbed : List Nat

def Sha256Hasher.init : Sha256Hasher := ⟨[]⟩

/-- Model of `hasher.update(bs)`: absorbs further bytes. -/
def Sha256Hasher.update (h : Sha256Hasher) (bs : List Nat) : Sha256Hasher :=
  ⟨h.absorbed ++ bs⟩

/-- Model of `hasher.digest()`. -/
def Sha256Hasher.digest (h : Sha256Hasher) : List Nat := sha256Bytes h.absorbed

/-- Lines 57-65 of `transactions.py`: `compute_hash` feeds the decimal string
of the device id, the location, the formatted timestamp and the string form of
the destruct flag, each UTF-8 encoded, into one SHA-256 hasher and returns the
digest. -/
def compute_hash (device_id : Int) (location : String) (timestamp : DateTime)
    (destruct : Bool) : List Nat :=
  ((((Sha256Hasher.init.update (utf8Encode (pyStr device_id))).update
        (utf8Encode location)).update
      (utf8Encode (pyStrftime timestamp))).update
    (utf8Encode (pyBoolStr destruct))).digest

/-- Lines 110-116 of `transactions.py`: the BLOCK transaction string, built by
`send_device_location` with Python string formatting (each argument rendered
with `str`; the signature is passed already hex-encoded). -/
def blockTxString (device_id : Int) (location : String) (now : DateTime) (destruct : Bool)
    (sig : List Nat) : String :=
  "BLOCK=" ++ pyStr device_id ++ "=" ++ location ++ "=" ++ pyStrftime now ++ "=" ++
    pyBoolStr destruct ++ "=" ++ bytesHex sig

/-- Lines 86-89 of `transactions.py`: the ALLOCATE transaction string. -/
def allocateTxString (location : String) (now : DateTime) : String :=
  "ALLOCATE=" ++ location ++ "=" ++ pyStrftime now

/-- Python subscription `d[k]` on a parsed JSON value: field lookup on an
object, `KeyError` when the key is absent, `TypeError` when the value is not
an object (string subscription with a string key, integer subscription and
subscription of scalars all raise `TypeError` in the situations the client
meets). -/
def Json.lookup : Json → String → Except PyExc Json
  | .obj fields, k =>
    match fields.find? (fun f => f.1 == k) with
    | some f => .ok f.2
    | none => .error .keyError
  | _, _ => .error .typeError

/-- Python truthiness of a parsed JSON value (`if value:`): `None`, `False`,
zero, the empty string, the empty list and the empty dict are falsy. -/
def pyTruthy : Json → Bool
  | .null => false
  | .bool b => b
  | .num n => n != 0
  | .str s => !s.isEmpty
  | .arr elems => !elems.isEmpty
  | .obj fields => !fields.isEmpty

/-- One observed behaviour of `requests.get` plus `json.loads` on its body:
the request raises an exception (connection failure, or a user interrupt
delivered during the call), or the body is not parsable JSON (`json.loads`
raises a subclass of `ValueError`), or a parsed JSON document is obtained. -/
inductive NetResponse where
  | raised (e : PyExc)
  | badJson
  | json (j : Json)

/-- The value of `json.loads(response.content)` as an exception-or-result. -/
def NetResponse.toJson : NetResponse → Except PyExc Json
  | .raised e => .error e
  | .badJson => .error .valueError
  | .json j => .ok j

/-- Outcome of one public operation: a returned value, an uncaught exception
propagating to the caller, or process termination (`quit()`). -/
inductive PyResult (α : Type) where
  | normal (a : α)
  | raised (e : PyExc)
  | exited

/-- The try/except pattern shared by all four public operations:
`except KeyboardInterrupt: quit()` then a bare `except:` returning the
operation's failure result. -/
def pyRun {α : Type} (body : Except PyExc α) (fallback : α) : PyResult α :=
  match body with
  | .ok a => .normal a
  | .error .keyboardInterrupt => .exited
  | .error _ => .normal fallback

/-- Try-block of `allocate_device_id` (lines 77-91): parse the response,
return `(False, -1)` if the check stage reports an error, otherwise decode the
delivered device id from base64 and UTF-8 and parse it as an integer. -/
def allocateBody (resp : NetResponse) : Except PyExc (Bool × Int) := do
  let d ← resp.toJson
  let result ← d.lookup "result"
  let checkTx ← result.lookup "check_tx"
  let code ← checkTx.lookup "code"
  if pyTruthy code then
    return (false, -1)
  else
    let result2 ← d.lookup "result"
    let deliverTx ← result2.lookup "deliver_tx"
    let dataField ← deliverTx.lookup "data"
    let bs ← pyB64DecodeJson dataField
    let s ← pyBytesDecode bs
    let n ← pyIntStr s
    return (true, n)

/-- Model of `allocate_device_id` (lines 68-94), as a function of the response
behaviour; the request string itself (see `allocateTxString`) does not affect
the returned value. -/
def allocate_device_id (resp : NetResponse) : PyResult (Bool × Int) :=
  pyRun (allocateBody resp) (false, -1)

/-- Try-block of `send_device_location` (lines 108-128): build and broadcast
the transaction, then return `(False, log)` if the check stage reports an
error and `(True, "")` otherwise.  The message component has the dynamic type
of the JSON field, hence `Json`. -/
def sendDeviceLocationBody (resp : NetResponse) : Except PyExc (Bool × Json) := do
  let d ← resp.toJson
  let result ← d.lookup "result"
  let checkTx ← result.lookup "check_tx"
  let code ← checkTx.lookup "code"
  if pyTruthy code then
    let result2 ← d.lookup "result"
    let checkTx2 ← result2.lookup "check_tx"
    let log ← checkTx2.lookup "log"
    return (false, log)
  else
    return (true, .str "")

/-- Model of `send_device_location` (lines 97-135), as a function of the response
behaviour; the transaction string it broadcasts is `blockTxString` with the
signature produced by the caller's signing key. -/
def send_device_location (resp : NetResponse) : PyResult (Bool × Json) :=
  pyRun (sendDeviceLocationBody resp) (false, .str "unexpected error")

/-- Try-block of `query_number_of_devices` (lines 149-159). -/
def queryNumberBody (resp : NetResponse) : Except PyExc (Bool × Json × Int) := do
  let d ← resp.toJson
  let result ← d.lookup "result"
  let message ← result.lookup "response"
  let code ← message.lookup "code"
  if pyTruthy code then
    let log ← message.lookup "log"
    return (false, log, -1)
  else
    let v ← message.lookup "value"
    let bs ← pyB64DecodeJson v
    let s ← pyBytesDecode bs
    let n ← pyIntStr s
    return (true, .str "", n)

/-- Model of `query_number_of_devices` (lines 138-163). -/
def query_number_of_devices (resp : NetResponse) : PyResult (Bool × Json × Int) :=
  pyRun (queryNumberBody resp) (false, .str "unexpected error", -1)

/-- The history decode loop of `query_device_information` (lines 193-196):
`for i in range(0, len(data), 2)` reads `data[i]` and `data[i + 1]`; an odd
tail makes the second read raise `IndexError`, and each timestamp is parsed
with `strptime`.  Records are accumulated in network order. -/
def decodeHistoryLoop : List String → Except PyExc (List (String × DateTime))
  | [] => .ok []
  | [_] => .error .indexError
  | loc :: ts :: rest => do
    let dt ← pyStrptime ts
    let tail ← decodeHistoryLoop rest
    return (loc, dt) :: tail

/-- Try-block of `query_device_information` (lines 180-198): parse the
response, surface the log on a non-zero code, otherwise decode the
base64/UTF-8 payload when the value field is truthy, split it on "=" and run
the history loop; the info field is read at the return statement. -/
def queryInformationBody (resp : NetResponse) :
    Except PyExc (Bool × Json × List (String × DateTime)) := do
  let d ← resp.toJson
  let result ← d.lookup "result"
  let message ← result.lookup "response"
  let code ← message.lookup "code"
  if pyTruthy code then
    let log ← message.lookup "log"
    return (false, log, [])
  else
    let v ← message.lookup "value"
    if pyTruthy v then
      let bs ← pyB64DecodeJson v
      let payload ← pyBytesDecode bs
      let deviceInfo ← decodeHistoryLoop (pySplitEq payload)
      let info ← message.lookup "info"
      return (true, info, deviceInfo)
    else
      let info ← message.lookup "info"
      return (true, info, [])

/-- Model of `query_device_information` (lines 166-202). -/
def query_device_information (resp : NetResponse) :
    PyResult (Bool × Json × List (String × DateTime)) :=
  pyRun (queryInformationBody resp) (false, .str "unexpected error", [])

/-- The six-bit values underlying the data characters of `b64EncodeChunks`. -/
def b64Sextets : List Nat → List Nat
  | [] => []
  | [a] => [a / 4, a % 4 * 16]
  | [a, b] => [a / 4, a % 4 * 16 + b / 16, b % 16 * 4]
  | a :: b :: c :: rest =>
    a / 4 :: (a % 4 * 16 + b / 16) :: (b % 16 * 4 + c / 64) :: c % 64 :: b64Sextets rest

/-- The number of pad characters appended by `b64EncodeChunks`. -/
def b64PadLen : List Nat → Nat
  | [] => 0
  | [_] => 2
  | [_, _] => 1
  | _ :: _ :: _ :: rest => b64PadLen rest

/-! ### Helper lemmas about the shared try/except wrapper -/

theorem pyRun_ne_raised {α : Type} (body : Except PyExc α) (fb : α) (e : PyExc) :
    pyRun body fb ≠ .raised e := by
  rcases body with e' | a
  · cases e' <;> simp [pyRun]
  · simp [pyRun]

theorem pyRun_error {α : Type} (body : Except PyExc α) (fb : α) (e : PyExc)
    (he : e ≠ .keyboardInterrupt) (h : body = .error e) : pyRun body fb = .normal fb := by
  subst h; cases e <;> simp [pyRun] at he ⊢

theorem pyRun_ki {α : Type} (body : Except PyExc α) (fb : α)
    (h : body = .error .keyboardInterrupt) : pyRun body fb = .exited := by
  subst h; rfl

/-! ### Decimal digit lemmas -/

theorem digitVal_digitChar : ∀ d : Nat, d < 10 → digitVal (digitChar d) = some d := by decide

theorem digitChar_not_space : ∀ d : Nat, d < 10 → isPySpace (digitChar d) = false := by decide

theorem digitChar_ne_minus : ∀ d : Nat, d < 10 → (digitChar d == '-') = false := by decide

theorem digitChar_ne_plus : ∀ d : Nat, d < 10 → (digitChar d == '+') = false := by decide

theorem natDigitsAux_digits (fuel : Nat) :
    ∀ n, n < fuel → ∀ c ∈ natDigitsAux fuel n, ∃ d, d < 10 ∧ c = digitChar d := by
  induction fuel with
  | zero => omega
  | succ f ih =>
    intro n hn c hc
    by_cases h10 : n < 10
    · simp [natDigitsAux, h10] at hc
      exact ⟨n, h10, hc⟩
    · simp [natDigitsAux, h10] at hc
      rcases hc with hc | hc
      · have hdiv : n / 10 < f := by
          have := Nat.div_lt_self (show 0 < n by omega) (show 1 < 10 by omega)
          omega
        exact ih (n / 10) hdiv c hc
      · exact ⟨n % 10, by omega, hc⟩

theorem natDigitsAux_ne_nil (fuel n : Nat) (h : n < fuel) : natDigitsAux fuel n ≠ [] := by
  cases fuel with
  | zero => omega
  | succ f => by_cases h10 : n < 10 <;> simp [natDigitsAux, h10]

theorem natDigitsAux_foldl (fuel : Nat) :
    ∀ n acc, n < fuel →
      (natDigitsAux fuel n).foldl (fun a c => a * 10 + (digitVal c).getD 0) acc =
        acc * 10 ^ (natDigitsAux fuel n).length + n := by
  induction fuel with
  | zero => omega
  | succ f ih =>
    intro n acc hn
    by_cases h10 : n < 10
    · simp [natDigitsAux, h10, digitVal_digitChar n h10]
    · have hdiv : n / 10 < f := by
        have := Nat.div_lt_self (show 0 < n by omega) (show 1 < 10 by omega)
        omega
      simp only [natDigitsAux, if_neg h10, List.foldl_append, List.length_append,
        List.foldl_cons, List.foldl_nil, List.length_cons, List.length_nil]
      rw [ih (n / 10) acc hdiv]
      rw [digitVal_digitChar (n % 10) (by omega)]
      simp only [Option.getD_some]
      have hdm : n / 10 * 10 + n % 10 = n := by omega
      calc (acc * 10 ^ (natDigitsAux f (n / 10)).length + n / 10) * 10 + n % 10
          = acc * (10 ^ (natDigitsAux f (n / 10)).length * 10) + (n / 10 * 10 + n % 10) := by
            ring
        _ = acc * 10 ^ ((natDigitsAux f (n / 10)).length + 0 + 1) + n := by
            rw [hdm, pow_succ]

theorem parseDigitsAux_digits (l : List Char) :
    ∀ acc, (∀ c ∈ l, (digitVal c).isSome) →
      parseDigitsAux l acc =
        some (l.foldl (fun a c => a * 10 + (digitVal c).getD 0) acc) := by
  induction l with
  | nil => intro acc _; rfl
  | cons c rest ih =>
    intro acc h
    have hc := h c (by simp)
    rcases hv : digitVal c with _ | d
    · rw [hv] at hc; simp at hc
    · cases rest with
      | nil => simp [parseDigitsAux, hv]
      | cons r rest2 =>
        rw [parseDigitsAux.eq_2, hv]
        simp only [List.foldl_cons, hv, Option.getD_some]
        exact ih (acc * 10 + d) (fun x hx => h x (by simp [hx]))

theorem parseUnsignedInt_natDigits (n : Nat) : parseUnsignedInt (natDigits n) = some n := by
  have hlt : n < n + 1 := Nat.lt_succ_self n
  have hdig : ∀ x ∈ natDigitsAux (n + 1) n, (digitVal x).isSome := by
    intro x hx
    obtain ⟨d, hd, rfl⟩ := natDigitsAux_digits (n + 1) n hlt x hx
    simp [digitVal_digitChar d hd]
  rcases hne : natDigitsAux (n + 1) n with _ | ⟨c, rest⟩
  · exact absurd hne (natDigitsAux_ne_nil (n + 1) n hlt)
  · have hc : (digitVal c).isSome := hdig c (by rw [hne]; simp)
    rcases hv : digitVal c with _ | d
    · rw [hv] at hc; simp at hc
    · have hrest : ∀ x ∈ rest, (digitVal x).isSome := by
        intro x hx
        exact hdig x (by rw [hne]; simp [hx])
      have hfold := natDigitsAux_foldl (n + 1) n 0 hlt
      rw [hne] at hfold
      simp only [List.foldl_cons, hv, Option.getD_some, Nat.zero_mul, Nat.zero_add] at hfold
      unfold natDigits
      rw [hne]
      simp only [parseUnsignedInt, hv]
      rw [parseDigitsAux_digits rest d hrest]
      rw [hfold]

/-! ### Base64 encode/decode round trip -/

theorem sextetOf_b64Char : ∀ n : Nat, n < 64 → sextetOf (b64Char n) = some n := by decide

theorem b64Char_ne_pad : ∀ n : Nat, n < 64 → (b64Char n != '=') = true := by decide

theorem isB64Relevant_b64Char : ∀ n : Nat, n < 64 → isB64Relevant (b64Char n) = true := by decide

theorem b64Sextets_lt (bs : List Nat) (h : ∀ b ∈ bs, b < 256) :
    ∀ s ∈ b64Sextets bs, s < 64 := by
  induction bs using b64Sextets.induct with
  | case1 => intro s hs; simp [b64Sextets] at hs
  | case2 a =>
    have ha := h a (by simp)
    intro s hs
    simp [b64Sextets] at hs
    rcases hs with rfl | rfl <;> omega
  | case3 a b =>
    have ha := h a (by simp)
    have hb := h b (by simp)
    intro s hs
    simp [b64Sextets] at hs
    rcases hs with rfl | rfl | rfl <;> omega
  | case4 a b c rest ih =>
    have ha := h a (by simp)
    have hb := h b (by simp)
    have hc := h c (by simp)
    intro s hs
    simp only [b64Sextets, List.mem_cons] at hs
    rcases hs with rfl | rfl | rfl | rfl | hs
    · omega
    · omega
    · omega
    · omega
    · exact ih (fun x hx => h x (by simp [hx])) s hs

theorem b64EncodeChunks_eq (bs : List Nat) :
    b64EncodeChunks bs = (b64Sextets bs).map b64Char ++ List.replicate (b64PadLen bs) '=' := by
  induction bs using b64EncodeChunks.induct with
  | case1 => rfl
  | case2 a => rfl
  | case3 a b => rfl
  | case4 a b c rest ih =>
    simp only [b64EncodeChunks, b64Sextets, b64PadLen, List.map_cons, List.cons_append]
    rw [ih]

theorem takeWhile_of_all {α : Type} (p : α → Bool) (l : List α)
    (h : ∀ c ∈ l, p c = true) : l.takeWhile p = l := by
  induction l with
  | nil => rfl
  | cons c rest ih =>
    rw [List.takeWhile_cons, if_pos (h c (by simp))]
    rw [ih (fun x hx => h x (by simp [hx]))]

theorem b64Sextets_length_padLen (bs : List Nat) :
    ((b64Sextets bs).length % 4 = 0 ∧ b64PadLen bs = 0) ∨
    ((b64Sextets bs).length % 4 = 2 ∧ b64PadLen bs = 2) ∨
    ((b64Sextets bs).length % 4 = 3 ∧ b64PadLen bs = 1) := by
  induction bs using b64Sextets.induct with
  | case1 => simp [b64Sextets, b64PadLen]
  | case2 a => simp [b64Sextets, b64PadLen]
  | case3 a b => simp [b64Sextets, b64PadLen]
  | case4 a b c rest ih =>
    simp only [b64Sextets, b64PadLen, List.length_cons]
    omega

theorem b64DecodeChunks_b64Sextets (bs : List Nat) (h : ∀ b ∈ bs, b < 256) :
    b64DecodeChunks (b64Sextets bs) = bs := by
  induction bs using b64Sextets.induct with
  | case1 => rfl
  | case2 a =>
    have ha := h a (by simp)
    simp only [b64Sextets, b64DecodeChunks, List.cons.injEq, and_true]
    omega
  | case3 a b =>
    have ha := h a (by simp)
    have hb := h b (by simp)
    simp only [b64Sextets, b64DecodeChunks, List.cons.injEq, and_true]
    refine ⟨by omega, by omega⟩
  | case4 a b c rest ih =>
    have ha := h a (by simp)
    have hb := h b (by simp)
    have hc := h c (by simp)
    simp only [b64Sextets, b64DecodeChunks]
    rw [ih (fun x hx => h x (by simp [hx]))]
    simp only [List.cons.injEq, and_true]
    refine ⟨by omega, by omega, by omega⟩

theorem pyB64Decode_pyB64Encode (bs : List Nat) (h : ∀ b ∈ bs, b < 256) :
    pyB64Decode (pyB64Encode bs) = .ok bs := by
  have hsex := b64Sextets_lt bs h
  have hdata : (pyB64Encode bs).data = (b64Sextets bs).map b64Char ++
      List.replicate (b64PadLen bs) '=' := by
    show (String.mk (b64EncodeChunks bs)).data = _
    rw [b64EncodeChunks_eq]
  have hfilter : ((b64Sextets bs).map b64Char ++
      List.replicate (b64PadLen bs) '=').filter isB64Relevant =
      (b64Sextets bs).map b64Char ++ List.replicate (b64PadLen bs) '=' := by
    rw [List.filter_eq_self]
    intro x hx
    rcases List.mem_append.mp hx with hx | hx
    · obtain ⟨s, hs, rfl⟩ := List.mem_map.mp hx
      exact isB64Relevant_b64Char s (hsex s hs)
    · rw [List.eq_of_mem_replicate hx]; rfl
  have htake : (((b64Sextets bs).map b64Char ++
      List.replicate (b64PadLen bs) '=').takeWhile (fun c => c != '=')) =
      (b64Sextets bs).map b64Char := by
    rw [List.takeWhile_append]
    rw [takeWhile_of_all _ _ (fun x hx => by
      obtain ⟨s, hs, rfl⟩ := List.mem_map.mp hx
      exact b64Char_ne_pad s (hsex s hs))]
    simp [List.takeWhile_replicate]
  have hmap : ((b64Sextets bs).map b64Char).filterMap sextetOf = b64Sextets bs := by
    rw [List.filterMap_map]
    have : ∀ l : List Nat, (∀ s ∈ l, s < 64) → l.filterMap (sextetOf ∘ b64Char) = l := by
      intro l
      induction l with
      | nil => intro _; rfl
      | cons s rest ih =>
        intro hl
        rw [List.filterMap_cons]
        have := sextetOf_b64Char s (hl s (by simp))
        simp only [Function.comp_apply, this]
        rw [ih (fun x hx => hl x (by simp [hx]))]
    exact this _ hsex
  simp only [pyB64Decode]
  rw [hdata, hfilter, htake, hmap]
  rw [List.length_append, List.length_map, List.length_replicate]
  rcases b64Sextets_length_padLen bs with ⟨h1, h2⟩ | ⟨h1, h2⟩ | ⟨h1, h2⟩ <;>
    · rw [h2, if_neg (by simp [List.length_map, h1])]
      rw [b64DecodeChunks_b64Sextets bs h]

/-! ### UTF-8 round trip on ASCII strings -/

theorem char_toNat_lt (c : Char) : c.toNat < 1114112 := by
  have h : c.val.toNat < 55296 ∨ (57344 ≤ c.val.toNat ∧ c.val.toNat < 1114112) := c.valid
  show c.val.toNat < 1114112
  omega

theorem utf8EncodeChar_lt (c : Char) : ∀ b ∈ utf8EncodeChar c, b < 256 := by
  have hval : c.toNat < 1114112 := char_toNat_lt c
  intro b hb
  unfold utf8EncodeChar at hb
  by_cases h1 : c.toNat < 128
  · simp [h1] at hb; omega
  · by_cases h2 : c.toNat < 2048
    · simp [h1, h2] at hb; rcases hb with rfl | rfl <;> omega
    · by_cases h3 : c.toNat < 65536
      · simp [h1, h2, h3] at hb; rcases hb with rfl | rfl | rfl <;> omega
      · simp [h1, h2, h3] at hb; rcases hb with rfl | rfl | rfl | rfl <;> omega

theorem utf8Encode_lt (s : String) : ∀ b ∈ utf8Encode s, b < 256 := by
  intro b hb
  unfold utf8Encode at hb
  obtain ⟨c, _, hbc⟩ := List.mem_flatMap.mp hb
  exact utf8EncodeChar_lt c b hbc

theorem utf8EncodeChar_ascii (c : Char) (hc : c.toNat < 128) : utf8EncodeChar c = [c.toNat] := by
  simp [utf8EncodeChar, hc]

theorem utf8DecodeOne_ascii (b : Nat) (hb : b < 128) (rest : List Nat) :
    utf8DecodeOne b rest = some (Char.ofNat b, rest) := by
  unfold utf8DecodeOne
  rw [if_pos hb]

theorem utf8DecodeAux_flatMap_ascii (cs : List Char) :
    ∀ fuel, (∀ c ∈ cs, c.toNat < 128) → (cs.flatMap utf8EncodeChar).length ≤ fuel →
      utf8DecodeAux fuel (cs.flatMap utf8EncodeChar) = some cs := by
  induction cs with
  | nil =>
    intro fuel _ _
    cases fuel <;> rfl
  | cons c rest ih =>
    intro fuel h hlen
    have hc := h c (by simp)
    rw [List.flatMap_cons, utf8EncodeChar_ascii c hc] at hlen ⊢
    rw [show ([c.toNat] ++ rest.flatMap utf8EncodeChar) =
      c.toNat :: rest.flatMap utf8EncodeChar from rfl] at hlen ⊢
    cases fuel with
    | zero => simp at hlen
    | succ f =>
      rw [utf8DecodeAux, utf8DecodeOne_ascii c.toNat hc]
      show (utf8DecodeAux f (rest.flatMap utf8EncodeChar)).map
        (fun cs => Char.ofNat c.toNat :: cs) = some (c :: rest)
      rw [ih f (fun x hx => h x (by simp [hx])) (by simp at hlen ⊢; omega)]
      simp [Char.ofNat_toNat]

theorem utf8DecodeList_flatMap_ascii (cs : List Char) (h : ∀ c ∈ cs, c.toNat < 128) :
    utf8DecodeList (cs.flatMap utf8EncodeChar) = some cs :=
  utf8DecodeAux_flatMap_ascii cs _ h (le_refl _)

theorem pyBytesDecode_utf8Encode_ascii (s : String) (h : ∀ c ∈ s.data, c.toNat < 128) :
    pyBytesDecode (utf8Encode s) = .ok s := by
  unfold pyBytesDecode utf8Encode
  rw [utf8DecodeList_flatMap_ascii s.data h]

theorem digitChar_toNat_lt : ∀ d : Nat, d < 10 → (digitChar d).toNat < 128 := by decide

theorem natRepr_ascii (n : Nat) : ∀ c ∈ (natRepr n).data, c.toNat < 128 := by
  intro c hc
  obtain ⟨d, hd, rfl⟩ := natDigitsAux_digits (n + 1) n (Nat.lt_succ_self n) c hc
  exact digitChar_toNat_lt d hd

theorem dropWhile_eq_self_of_forall {α : Type} (p : α → Bool) (l : List α)
    (h : ∀ c ∈ l, p c = false) : l.dropWhile p = l := by
  cases l with
  | nil => rfl
  | cons c rest => simp [List.dropWhile_cons, h c (by simp)]

theorem stripChars_of_no_space (l : List Char) (h : ∀ c ∈ l, isPySpace c = false) :
    stripChars l = l := by
  unfold stripChars
  rw [dropWhile_eq_self_of_forall _ l h]
  rw [dropWhile_eq_self_of_forall _ l.reverse (fun c hc => h c (List.mem_reverse.mp hc))]
  exact List.reverse_reverse l

theorem pyIntStr_natRepr (n : Nat) : pyIntStr (natRepr n) = .ok (n : Int) := by
  have hlt : n < n + 1 := Nat.lt_succ_self n
  have hprops : ∀ c ∈ natDigits n, ∃ d, d < 10 ∧ c = digitChar d :=
    natDigitsAux_digits (n + 1) n hlt
  have hdata : (natRepr n).data = natDigits n := rfl
  have hstrip : stripChars (natRepr n).data = natDigits n := by
    rw [hdata]
    refine stripChars_of_no_space _ (fun c hc => ?_)
    obtain ⟨d, hd, rfl⟩ := hprops c hc
    exact digitChar_not_space d hd
  rcases hne : natDigits n with _ | ⟨c, rest⟩
  · exact absurd hne (natDigitsAux_ne_nil (n + 1) n hlt)
  · obtain ⟨d, hd, hc⟩ := hprops c (by rw [hne]; simp)
    subst hc
    have hParse := parseUnsignedInt_natDigits n
    rw [hne] at hParse
    unfold pyIntStr
    rw [hstrip, hne]
    simp [digitChar_ne_minus d hd, digitChar_ne_plus d hd, hParse]

/-! ### Claims -/

/-- Claim C1: for every device id, location, timestamp and destruct flag, the
digest computed by `compute_hash` equals the SHA-256 hash of the
byte-concatenation, with no separators, of the decimal string of the device
id, the raw location string, the timestamp rendered in `DATETIME_FORMAT`, and
the string form of the destruct flag ("True" or "False"), in that order. -/
theorem compute_hash_eq_sha256_of_concat (device_id : Int) (location : String)
    (timestamp : DateTime) (destruct : Bool) :
    compute_hash device_id location timestamp destruct =
      sha256Bytes (utf8Encode (pyStr device_id) ++ utf8Encode location ++
        utf8Encode (pyStrftime timestamp) ++
        utf8Encode (if destruct then "True" else "False")) := by
  simp [compute_hash, Sha256Hasher.init, Sha256Hasher.update, Sha256Hasher.digest, pyBoolStr,
    List.append_assoc]

/-- Claim C2: for every public operation and every behaviour of the network
response, an exception raised in the body other than `KeyboardInterrupt` is
caught and converted to that operation's failure result and never propagates
to the caller, while `KeyboardInterrupt` terminates the process. -/
theorem operations_contain_exceptions (resp : NetResponse) :
    (∀ e : PyExc,
      allocate_device_id resp ≠ .raised e ∧
      send_device_location resp ≠ .raised e ∧
      query_number_of_devices resp ≠ .raised e ∧
      query_device_information resp ≠ .raised e) ∧
    (∀ e : PyExc, e ≠ .keyboardInterrupt →
      (allocateBody resp = .error e →
        allocate_device_id resp = .normal (false, -1)) ∧
      (sendDeviceLocationBody resp = .error e →
        send_device_location resp = .normal (false, .str "unexpected error")) ∧
      (queryNumberBody resp = .error e →
        query_number_of_devices resp = .normal (false, .str "unexpected error", -1)) ∧
      (queryInformationBody resp = .error e →
        query_device_information resp = .normal (false, .str "unexpected error", []))) ∧
    ((allocateBody resp = .error .keyboardInterrupt → allocate_device_id resp = .exited) ∧
     (sendDeviceLocationBody resp = .error .keyboardInterrupt →
       send_device_location resp = .exited) ∧
     (queryNumberBody resp = .error .keyboardInterrupt →
       query_number_of_devices resp = .exited) ∧
     (queryInformationBody resp = .error .keyboardInterrupt →
       query_device_information resp = .exited)) := by
  refine ⟨fun e => ⟨?_, ?_, ?_, ?_⟩, fun e he => ⟨?_, ?_, ?_, ?_⟩, ?_, ?_, ?_, ?_⟩
  · exact pyRun_ne_raised _ _ e
  · exact pyRun_ne_raised _ _ e
  · exact pyRun_ne_raised _ _ e
  · exact pyRun_ne_raised _ _ e
  · exact fun h => pyRun_error _ _ e he h
  · exact fun h => pyRun_error _ _ e he h
  · exact fun h => pyRun_error _ _ e he h
  · exact fun h => pyRun_error _ _ e he h
  · exact fun h => pyRun_ki _ _ h
  · exact fun h => pyRun_ki _ _ h
  · exact fun h => pyRun_ki _ _ h
  · exact fun h => pyRun_ki _ _ h

/-- Witness for claim C2 at two concrete response behaviours: an unparsable
body is converted to the failure result, and a user interrupt during the
request exits the process. -/
theorem operations_contain_exceptions_witness :
    allocate_device_id .badJson = .normal (false, -1) ∧
    query_device_information (.raised .keyboardInterrupt) = .exited := by
  constructor
  · exact ((operations_contain_exceptions .badJson).2.1 .valueError (by decide)).1 rfl
  · exact ((operations_contain_exceptions (.raised .keyboardInterrupt)).2.2).2.2.2 rfl

/-- Claim C7: `allocate_device_id` returns `(true, n)` when the response has
check-stage code zero (falsy) and a deliver-stage data field that is the
base64 encoding of the UTF-8 decimal string of `n`, and returns `(false, -1)`
whenever the check-stage code is truthy or the body raises any non-interrupt
exception. -/
theorem allocate_device_id_result :
    (∀ (j r ct cj dtx : Json) (n : Nat),
      Json.lookup j "result" = .ok r →
      Json.lookup r "check_tx" = .ok ct →
      Json.lookup ct "code" = .ok cj →
      (pyTruthy cj = false →
        Json.lookup r "deliver_tx" = .ok dtx →
        Json.lookup dtx "data" = .ok (.str (pyB64Encode (utf8Encode (natRepr n)))) →
        allocate_device_id (.json j) = .normal (true, (n : Int))) ∧
      (pyTruthy cj = true →
        allocate_device_id (.json j) = .normal (false, -1))) ∧
    (∀ (resp : NetResponse) (e : PyExc), e ≠ .keyboardInterrupt →
      allocateBody resp = .error e →
      allocate_device_id resp = .normal (false, -1)) := by
  constructor
  · intro j r ct cj dtx n h1 h2 h3
    constructor
    · intro hcode h4 h5
      have hbody : allocateBody (.json j) = .ok (true, (n : Int)) := by
        simp [allocateBody, NetResponse.toJson, h1, h2, h3, hcode, h4, h5, pyB64DecodeJson,
          bind, Except.bind,
          pyB64Decode_pyB64Encode _ (utf8Encode_lt (natRepr n)),
          pyBytesDecode_utf8Encode_ascii _ (natRepr_ascii n),
          pyIntStr_natRepr n, pure, Except.pure]
      simp [allocate_device_id, hbody, pyRun]
    · intro hcode
      have hbody : allocateBody (.json j) = .ok (false, -1) := by
        simp [allocateBody, NetResponse.toJson, h1, h2, h3, hcode, bind, Except.bind,
          pure, Except.pure]
      simp [allocate_device_id, hbody, pyRun]
  · intro resp e he hbody
    exact pyRun_error _ _ e he hbody

/-- Witness for claim C7: with check code 0 and data base64("5"), allocation
returns `(true, 5)`; with check code 1 it returns `(false, -1)`. -/
theorem allocate_device_id_result_witness :
    allocate_device_id (.json (.obj [("result", .obj
      [("check_tx", .obj [("code", .num 0)]),
       ("deliver_tx", .obj [("data", .str "NQ==")])])])) = .normal (true, 5) ∧
    allocate_device_id (.json (.obj [("result", .obj
      [("check_tx", .obj [("code", .num 1)])])])) = .normal (false, -1) := by
  constructor
  · exact (allocate_device_id_result.1
      (.obj [("result", .obj
        [("check_tx", .obj [("code", .num 0)]),
         ("deliver_tx", .obj [("data", .str "NQ==")])])])
      (.obj [("check_tx", .obj [("code", .num 0)]),
             ("deliver_tx", .obj [("data", .str "NQ==")])])
      (.obj [("code", .num 0)]) (.num 0) (.obj [("data", .str "NQ==")]) 5
      rfl rfl rfl).1 rfl rfl (by rfl)
  · exact (allocate_device_id_result.1
      (.obj [("result", .obj [("check_tx", .obj [("code", .num 1)])])])
      (.obj [("check_tx", .obj [("code", .num 1)])])
      (.obj [("code", .num 1)]) (.num 1) .null 5 rfl rfl rfl).2 rfl

/-- Claim C4: decoding the history payload
"siteA=210101010101000000=siteB=210102020202000000", as done inside
`query_device_information` on a success response carrying that value, yields
exactly the records ("siteA", 2021-01-01T01:01:01.000000) and
("siteB", 2021-01-02T02:02:02.000000), in that order. -/
theorem query_device_information_decodes_history :
    query_device_information (.json (.obj [("result", .obj [("response", .obj
      [("code", .num 0), ("log", .str ""), ("info", .str "ok"),
       ("value", .str (pyB64Encode (utf8Encode
         "siteA=210101010101000000=siteB=210102020202000000")))])])])) =
    .normal (true, .str "ok",
      [("siteA", ⟨2021, 1, 1, 1, 1, 1, 0⟩), ("siteB", ⟨2021, 1, 2, 2, 2, 2, 0⟩)]) := by
  rfl

/-- Claim C6: for a well-formed broadcast response, `send_device_location`
returns `(false, m)` with the network's check-stage log message verbatim when
the check-stage code is non-zero, and `(true, "")` when it is zero. -/
theorem send_device_location_check_result (j r ct : Json) (c : Int) (m : String)
    (h1 : Json.lookup j "result" = .ok r)
    (h2 : Json.lookup r "check_tx" = .ok ct)
    (h3 : Json.lookup ct "code" = .ok (.num c))
    (h4 : Json.lookup ct "log" = .ok (.str m)) :
    (c ≠ 0 → send_device_location (.json j) = .normal (false, .str m)) ∧
    (c = 0 → send_device_location (.json j) = .normal (true, .str "")) := by
  constructor
  · intro hc
    have ht : pyTruthy (.num c) = true := by simp [pyTruthy, hc]
    have hbody : sendDeviceLocationBody (.json j) = .ok (false, .str m) := by
      simp [sendDeviceLocationBody, NetResponse.toJson, h1, h2, h3, h4, ht, bind, Except.bind,
        pure, Except.pure]
    simp [send_device_location, hbody, pyRun]
  · intro hc
    subst hc
    have ht : pyTruthy (.num 0) = false := by simp [pyTruthy]
    have hbody : sendDeviceLocationBody (.json j) = .ok (true, .str "") := by
      simp [sendDeviceLocationBody, NetResponse.toJson, h1, h2, h3, ht, bind, Except.bind,
        pure, Except.pure]
    simp [send_device_location, hbody, pyRun]

/-- Witness for claim C6 at concrete responses with code 2 and code 0. -/
theorem send_device_location_check_result_witness :
    send_device_location (.json (.obj [("result", .obj [("check_tx",
      .obj [("code", .num 2), ("log", .str "tx rejected")])])])) =
      .normal (false, .str "tx rejected") ∧
    send_device_location (.json (.obj [("result", .obj [("check_tx",
      .obj [("code", .num 0), ("log", .str "fine")])])])) = .normal (true, .str "") := by
  constructor
  · exact (send_device_location_check_result
      (.obj [("result", .obj [("check_tx",
        .obj [("code", .num 2), ("log", .str "tx rejected")])])])
      (.obj [("check_tx", .obj [("code", .num 2), ("log", .str "tx rejected")])])
      (.obj [("code", .num 2), ("log", .str "tx rejected")])
      2 "tx rejected" rfl rfl rfl rfl).1 (by decide)
  · exact (send_device_location_check_result
      (.obj [("result", .obj [("check_tx",
        .obj [("code", .num 0), ("log", .str "fine")])])])
      (.obj [("check_tx", .obj [("code", .num 0), ("log", .str "fine")])])
      (.obj [("code", .num 0), ("log", .str "fine")])
      0 "fine" rfl rfl rfl rfl).2 rfl

/-- Claim C9: `query_device_information`, on a success response whose value
payload is the empty string, returns a success result carrying the info field
and the empty sequence of visit records. -/
theorem query_device_information_empty_value (j r msg cj ij : Json)
    (h1 : Json.lookup j "result" = .ok r)
    (h2 : Json.lookup r "response" = .ok msg)
    (h3 : Json.lookup msg "code" = .ok cj)
    (hcode : pyTruthy cj = false)
    (h4 : Json.lookup msg "value" = .ok (.str ""))
    (h5 : Json.lookup msg "info" = .ok ij) :
    query_device_information (.json j) = .normal (true, ij, []) := by
  have ht : pyTruthy (.str "") = false := rfl
  have hbody : queryInformationBody (.json j) = .ok (true, ij, []) := by
    simp [queryInformationBody, NetResponse.toJson, h1, h2, h3, hcode, h4, h5, ht,
      bind, Except.bind, pure, Except.pure]
  simp [query_device_information, hbody, pyRun]

/-- Witness for claim C9 at a concrete empty-payload response. -/
theorem query_device_information_empty_value_witness :
    query_device_information (.json (.obj [("result", .obj [("response", .obj
      [("code", .num 0), ("info", .str "no visits"), ("value", .str "")])])])) =
      .normal (true, .str "no visits", []) :=
  query_device_information_empty_value
    (.obj [("result", .obj [("response", .obj
      [("code", .num 0), ("info", .str "no visits"), ("value", .str "")])])])
    (.obj [("response", .obj
      [("code", .num 0), ("info", .str "no visits"), ("value", .str "")])])
    (.obj [("code", .num 0), ("info", .str "no visits"), ("value", .str "")])
    (.num 0) (.str "no visits") rfl rfl rfl rfl rfl rfl

theorem natDigitsAux_length_le (fuel : Nat) :
    ∀ n k, n < fuel → n < 10 ^ (k + 1) → (natDigitsAux fuel n).length ≤ k + 1 := by
  induction fuel with
  | zero => omega
  | succ f ih =>
    intro n k h1 h2
    by_cases h10 : n < 10
    · simp only [natDigitsAux, if_pos h10, List.length_cons, List.length_nil]
      omega
    · cases k with
      | zero =>
        norm_num at h2
        omega
      | succ k2 =>
        have hdiv : n / 10 < f := by
          have := Nat.div_lt_self (show 0 < n by omega) (show 1 < 10 by omega)
          omega
        have hdiv2 : n / 10 < 10 ^ (k2 + 1) := by
          rw [Nat.div_lt_iff_lt_mul (by omega : 0 < 10)]
          calc n < 10 ^ (k2 + 2) := h2
            _ = 10 ^ (k2 + 1) * 10 := by rw [pow_succ]
        have hlen := ih (n / 10) k2 hdiv hdiv2
        simp only [natDigitsAux, if_neg h10, List.length_append, List.length_cons,
          List.length_nil]
        omega

theorem natRepr_length_le (n k : Nat) (h : n < 10 ^ (k + 1)) : (natRepr n).length ≤ k + 1 := by
  show (natDigits n).length ≤ k + 1
  exact natDigitsAux_length_le (n + 1) n k (Nat.lt_succ_self n) h

theorem zfill_length (w : Nat) (s : String) : (zfill w s).length = max w s.length := by
  unfold zfill
  by_cases h : s.length < w
  · rw [if_pos h, String.length_append]
    have hrep : (String.mk (List.replicate (w - s.length) '0')).length = w - s.length := by
      show (List.replicate (w - s.length) '0').length = w - s.length
      exact List.length_replicate _ _
    rw [hrep]
    omega
  · rw [if_neg h]
    omega

theorem daysInMonth_le (y m : Nat) : daysInMonth y m ≤ 31 := by
  unfold daysInMonth
  split
  · split <;> omega
  · split <;> omega

/-- Claim C3 (amended): for every datetime accepted by the `datetime`
constructor, the wire timestamp produced by `DATETIME_FORMAT` is exactly 18
characters long (two digits each for year, month, day, hour, minute and
second, and six for the microsecond). -/
theorem pyStrftime_length_18 (dt : DateTime) (h : dt.Valid) :
    (pyStrftime dt).length = 18 := by
  obtain ⟨h1, h2, h3, h4, h5, h6, h7, h8, h9, h10⟩ := h
  have hdm := daysInMonth_le dt.year dt.month
  have ly : (natRepr (dt.year % 100)).length ≤ 2 :=
    natRepr_length_le _ 1 (by norm_num; omega)
  have lm : (natRepr dt.month).length ≤ 2 := natRepr_length_le _ 1 (by norm_num; omega)
  have ld : (natRepr dt.day).length ≤ 2 := natRepr_length_le _ 1 (by norm_num; omega)
  have lh : (natRepr dt.hour).length ≤ 2 := natRepr_length_le _ 1 (by norm_num; omega)
  have lmi : (natRepr dt.minute).length ≤ 2 := natRepr_length_le _ 1 (by norm_num; omega)
  have ls : (natRepr dt.second).length ≤ 2 := natRepr_length_le _ 1 (by norm_num; omega)
  have lu : (natRepr dt.microsecond).length ≤ 6 :=
    natRepr_length_le _ 5 (by norm_num; omega)
  unfold pyStrftime
  rw [String.length_append, String.length_append, String.length_append,
    String.length_append, String.length_append, String.length_append]
  rw [zfill_length, zfill_length, zfill_length, zfill_length, zfill_length, zfill_length,
    zfill_length]
  omega

/-- Witness for the amended claim C3 at a concrete valid datetime. -/
theorem pyStrftime_length_18_witness :
    DateTime.Valid ⟨2022, 12, 31, 23, 59, 58, 123456⟩ ∧
    (pyStrftime ⟨2022, 12, 31, 23, 59, 58, 123456⟩).length = 18 :=
  ⟨by decide, pyStrftime_length_18 _ (by decide)⟩

/-- Counterexample to claim C3 as stated: the formatted timestamp of the valid
datetime 2021-01-01T01:01:01.000000 is not 20 characters long (it is 18). -/
theorem pyStrftime_length_not_20 :
    DateTime.Valid ⟨2021, 1, 1, 1, 1, 1, 0⟩ ∧
    (pyStrftime ⟨2021, 1, 1, 1, 1, 1, 0⟩).length ≠ 20 := by
  constructor
  · decide
  · decide

theorem pyStrptime_error_eq (s : String) (e : PyExc) (h : pyStrptime s = .error e) :
    e = .valueError := by
  unfold pyStrptime at h
  rcases hopt : pyStrptimeOpt s with _ | dt <;> rw [hopt] at h
  · injection h with h'
    exact h'.symm
  · simp at h

theorem decodeHistoryLoop_odd (data : List String) (h : data.length % 2 = 1) :
    ∃ e, decodeHistoryLoop data = .error e ∧ e ≠ .keyboardInterrupt := by
  induction data using decodeHistoryLoop.induct with
  | case1 => simp at h
  | case2 x => exact ⟨.indexError, rfl, by decide⟩
  | case3 loc ts rest ih =>
    have hr : rest.length % 2 = 1 := by
      simp only [List.length_cons] at h
      omega
    rcases hdt : pyStrptime ts with edt | dt
    · refine ⟨edt, ?_, ?_⟩
      · simp [decodeHistoryLoop, hdt, bind, Except.bind]
      · rw [pyStrptime_error_eq ts edt hdt]
        decide
    · obtain ⟨e, he, hki⟩ := ih hr
      refine ⟨e, ?_, hki⟩
      simp [decodeHistoryLoop, hdt, he, bind, Except.bind]

/-- Claim C10: `query_device_information`, on a success response whose
non-empty decoded payload splits on "=" into an odd number of fields, returns
the generic failure result `(false, "unexpected error", [])`: the trailing
unpaired field raises `IndexError`, converted by the catch-all handler, so no
truncated record sequence is ever returned. -/
theorem query_device_information_odd_payload (j r msg cj : Json) (s payload : String)
    (bs : List Nat)
    (h1 : Json.lookup j "result" = .ok r)
    (h2 : Json.lookup r "response" = .ok msg)
    (h3 : Json.lookup msg "code" = .ok cj)
    (hcode : pyTruthy cj = false)
    (h4 : Json.lookup msg "value" = .ok (.str s))
    (hb : pyB64Decode s = .ok bs)
    (hp : pyBytesDecode bs = .ok payload)
    (hne : payload ≠ "")
    (hodd : (pySplitEq payload).length % 2 = 1) :
    query_device_information (.json j) = .normal (false, .str "unexpected error", []) := by
  have hs : s ≠ "" := by
    intro hseq
    subst hseq
    have hbs : bs = [] := by
      have h0 : (Except.ok [] : Except PyExc (List Nat)) = .ok bs := by rw [← hb]; rfl
      injection h0 with h0'
      exact h0'.symm
    subst hbs
    have hpay : payload = "" := by
      have h0 : (Except.ok "" : Except PyExc String) = .ok payload := by rw [← hp]; rfl
      injection h0 with h0'
      exact h0'.symm
    exact hne hpay
  have htr : pyTruthy (.str s) = true := by
    have hemp : s.isEmpty = false :=
      Bool.eq_false_iff.mpr (fun hT => hs ((String.isEmpty_iff s).mp hT))
    simp [pyTruthy, hemp]
  obtain ⟨e, he, hki⟩ := decodeHistoryLoop_odd (pySplitEq payload) hodd
  have hbody : queryInformationBody (.json j) = .error e := by
    simp [queryInformationBody, NetResponse.toJson, h1, h2, h3, hcode, h4, htr,
      pyB64DecodeJson, hb, hp, he, bind, Except.bind, pure, Except.pure]
  exact pyRun_error _ _ e hki hbody

/-- Witness for claim C10: value base64("siteA") decodes to the single field
"siteA", and the query returns the generic failure result. -/
theorem query_device_information_odd_payload_witness :
    query_device_information (.json (.obj [("result", .obj [("response", .obj
      [("code", .num 0), ("info", .str "ok"), ("value", .str "c2l0ZUE=")])])])) =
      .normal (false, .str "unexpected error", []) :=
  query_device_information_odd_payload
    (.obj [("result", .obj [("response", .obj
      [("code", .num 0), ("info", .str "ok"), ("value", .str "c2l0ZUE=")])])])
    (.obj [("response", .obj
      [("code", .num 0), ("info", .str "ok"), ("value", .str "c2l0ZUE=")])])
    (.obj [("code", .num 0), ("info", .str "ok"), ("value", .str "c2l0ZUE=")])
    (.num 0) "c2l0ZUE=" "siteA" [115, 105, 116, 101, 65]
    rfl rfl rfl rfl rfl (by rfl) (by rfl) (by decide) (by decide)

/-- Claim C5: the transaction string built by `send_device_location` (see
`blockTxString`) is exactly "BLOCK=" followed by the decimal device id, the
location, the formatted timestamp, "True" or "False", and the hex-encoded
signature, the six fields joined by literal "=" with no escaping. -/
theorem blockTxString_fields_joined (device_id : Int) (location : String) (now : DateTime)
    (destruct : Bool) (sig : List Nat) :
    blockTxString device_id location now destruct sig =
      "BLOCK" ++ "=" ++ pyStr device_id ++ "=" ++ location ++ "=" ++ pyStrftime now ++ "=" ++
        (if destruct then "True" else "False") ++ "=" ++ bytesHex sig := by
  rfl
